import Mathlib

/-!
Verification development for the nocrux per-user daemon supervisor
(`src/nocrux.py`).  The Python source is shallowly embedded: pure helpers
become Lean functions, and the OS facilities the program calls (filesystem
reads, `os.kill`, `os.setuid`, ...) are passed in as explicit oracles so
that every operation stays a total, executable Lean function.  Exceptions
are modelled with `Except`, and Python's `None` return values with
`Option`.
-/

/-! ## errno and signal constants (values as on Linux, `errno`/`signal` modules) -/

def ENOENT : Nat := 2
def ESRCH : Nat := 3
def EPERM : Nat := 1
def EACCES : Nat := 13
def SIGTERM : Nat := 15
def SIGKILL : Nat := 9

/-- A Python `OSError`, carrying its `errno`. -/
structure OSError where
  errno : Nat
deriving DecidableEq

/-- The Python exceptions the embedded code can raise: `OSError` from
syscalls and file access, `KeyError` from `pwd.getpwnam` / `grp.getgrnam`. -/
inductive PyExc where
  | osError (e : OSError)
  | keyError (name : String)
deriving DecidableEq

/-- The filesystem as seen through `open(path).readline()`: for each path,
either the file's full content or the `OSError` that opening it raises. -/
def FS := String → Except OSError String

/-! ## Python semantics helpers -/

/-- Python truthiness of an optional string (`if self.user:` etc.):
`None` and the empty string are falsy. -/
def pyTruthy? (s : Option String) : Option String :=
  match s with
  | none => none
  | some t => if t = "" then none else some t

/-- Python `a or b` for an optional string `a` and default `b`
(`stdin or "/dev/null"`, `self.stderr or self.stdout`). -/
def pyOr (a : Option String) (b : String) : String :=
  match pyTruthy? a with
  | some s => s
  | none => b

/-- Python truthiness of an optional bool return value (`if not daemon.stop():`):
`None` is falsy. -/
def pyTruthy (b : Option Bool) : Bool :=
  match b with
  | none => false
  | some v => v

/-- Whitespace as stripped by Python `int()`. -/
def pySpace (c : Char) : Bool :=
  c = ' ' || c = '\t' || c = '\n' || c = '\r' || c = '\x0b' || c = '\x0c'

/-- A nonempty all-digit character list parsed as a decimal number. -/
def digitsToNat? (l : List Char) : Option Nat :=
  match l with
  | [] => none
  | _ =>
    if l.all Char.isDigit then
      some (l.foldl (fun acc c => 10 * acc + (c.toNat - 48)) 0)
    else none

/-- Python `int(s)`: strip whitespace, allow an optional sign, then decimal
digits; `none` models the `ValueError` on anything else. -/
def pyInt? (s : String) : Option Int :=
  let t := ((s.data.dropWhile pySpace).reverse.dropWhile pySpace).reverse
  match t with
  | c :: rest =>
    if c = '-' then (digitsToNat? rest).map (fun n => -(n : Int))
    else if c = '+' then (digitsToNat? rest).map (fun n => (n : Int))
    else (digitsToNat? t).map (fun n => (n : Int))
  | [] => none

/-- `fp.readline()` on a file whose whole content is `content`: the first
line, keeping its trailing newline when one is present. -/
def readline (content : String) : String :=
  let l := content.data.takeWhile (fun c => c != '\n')
  if l.length = content.data.length then content
  else String.mk l ++ "\n"

/-- Python `repr` of an optional string, as used by `"{!r}".format(...)`
(escaping of quotes inside the string elided). -/
def pyReprOptStr (s : Option String) : String :=
  match s with
  | none => "None"
  | some t => "\x27" ++ t ++ "\x27"

/-- `shlex.quote`: a string of safe characters is returned unchanged,
anything else is wrapped in single quotes with embedded quotes escaped. -/
def shlexSafeChar (c : Char) : Bool :=
  c.isAlphanum || "_@%+=:,./-".data.contains c

def shlexQuote (s : String) : String :=
  if s.data.isEmpty then "\x27\x27"
  else if s.data.all shlexSafeChar then s
  else
    "\x27" ++
      String.mk (s.data.flatMap (fun c =>
        if c = '\x27' then "\x27\"\x27\"\x27".data else [c])) ++ "\x27"

/-! ## Path helpers (`abspath`, `makedirs` targets) -/

def isAbs (p : String) : Bool := p.data.head? = some '/'

/-- `abspath` from the source: resolve a relative path against the
configured root directory (the `os.path.abspath` normalization of an
already absolute join is elided; the inputs used here are plain names). -/
def abspath (root_dir : String) (path : String) : String :=
  if isAbs path then path else root_dir ++ "/" ++ path

/-- `os.path.dirname`: everything before the final slash (the special case
of a file directly under the root returning `/` is elided; only the event
labels depend on it). -/
def dirname (p : String) : String :=
  match p.data.reverse.dropWhile (fun c => c != '/') with
  | [] => ""
  | _ :: rest => String.mk rest.reverse

/-- `os.path.expanduser` relative to the `HOME` environment value current
in the detached flow (the `~user` form is elided). -/
def expanduser (homeEnv : String) (p : String) : String :=
  if p = "~" then homeEnv
  else if p.data.take 2 = ['~', '/'] then homeEnv ++ String.mk (p.data.drop 1)
  else p

/-- `kill_timeout` default installed by `load_config` before the config
script runs (`module.kill_timeout = 10`). -/
def default_kill_timeout : Nat := 10

/-! ## Data model: the `Daemon` class -/

/-- A daemon specification, with the fields as they are after
`Daemon.__init__` ran: `stdin`, `stdout` and `pidfile` are always set,
`stderr`, `cwd`, `user`, `group` may be `None`. -/
structure Daemon where
  name : String
  prog : String
  args : List String
  cwd : Option String
  user : Option String
  group : Option String
  stdin : String
  stdout : String
  stderr : Option String
  pidfile : String
deriving DecidableEq

/-- `Daemon.__init__`: apply the constructor defaults.  `pidfile` falls
back on Python truthiness (`if not pidfile:`), `stdout` only on `None`
(`if stdout is None:`), `stdin` on `stdin or "/dev/null"`. -/
def mkDaemon (root_dir : String) (name prog : String) (args : List String)
    (cwd user group stdin stdout stderr pidfile : Option String) : Daemon :=
  let pidfileV :=
    match pyTruthy? pidfile with
    | some p => p
    | none => abspath root_dir (name ++ ".pid")
  let stdoutV :=
    match stdout with
    | some s => s
    | none => abspath root_dir (name ++ ".out")
  { name := name, prog := prog, args := args, cwd := cwd, user := user,
    group := group, stdin := pyOr stdin "/dev/null", stdout := stdoutV,
    stderr := stderr, pidfile := pidfileV }

/-- status strings of the `Daemon` class. -/
def Status_Started : String := "started"

def Status_Stopped : String := "stopped"

/-! ## PidFileStore: the `Daemon.pid` property -/

/-- `Daemon.pid`: read the first line of the pidfile; an `OSError` with
errno other than `ENOENT` is re-raised, a missing file acts as the empty
string; `int(...)` failure (`ValueError`) yields 0. -/
def Daemon.pid (d : Daemon) (fs : FS) : Except PyExc Int :=
  match fs d.pidfile with
  | .ok content => .ok ((pyInt? (readline content)).getD 0)
  | .error e =>
    if e.errno = ENOENT then .ok ((pyInt? "").getD 0)
    else .error (PyExc.osError e)

/-! ## StatusOracle: `process_exists` and `Daemon.status` -/

/-- `process_exists`: pid 0 is never alive; otherwise probe with
`os.kill(pid, 0)` (the `osKill` oracle); any `OSError` means not alive.
`osKill pid sig` models one `os.kill(pid, sig)` call. -/
def process_exists (osKill : Int → Nat → Except OSError Unit) (pid : Int) : Bool :=
  if pid = 0 then false
  else
    match osKill pid 0 with
    | .ok _ => true
    | .error _ => false

/-- `Daemon.status`: `started` iff the recorded pid exists (exceptions
from the pid read propagate). -/
def Daemon.status (d : Daemon) (fs : FS) (osKill : Int → Nat → Except OSError Unit) :
    Except PyExc String :=
  match d.pid fs with
  | .error e => .error e
  | .ok p => .ok (if process_exists osKill p then Status_Started else Status_Stopped)

/-! ## Observable events of the two flows

Every externally visible action of `Daemon.start` (in its detached child)
and `Daemon.stop` is recorded as an event.  `execImage` is the
exec-style image replacement an implementation could perform; the source
never performs it (it uses `subprocess.Popen`), the constructor exists so
that statements about image replacement can be expressed. -/

inductive Ev where
  | makedirs (path : String)
  | openPidfile (path : String)
  | setsid
  | setuid (uid : Nat)
  | setgid (gid : Nat)
  | setHome (home : String)
  | chdir (path : String)
  | openFile (path : String) (mode : String)
  | logMsg (msg : String)
  | dup2 (fd : Nat)
  | spawn (cmd : List String)
  | execImage (cmd : List String)
  | writePidfile (path : String) (pid : Int)
  | sigTERM (pid : Int)
  | sigKILL (pid : Int)
  | poll (pid : Int)
  | sleepHalf
deriving DecidableEq

/-- Does the event change the on-disk state?  `openPidfile` is
`open(self.pidfile, "w")`, which truncates; `writePidfile` writes the
launched process id. -/
def modifiesFS (e : Ev) : Bool :=
  match e with
  | Ev.openPidfile _ => true
  | Ev.writePidfile _ _ => true
  | _ => false

/-- Effect of one event on the filesystem. -/
def applyEv (fs : FS) (e : Ev) : FS :=
  match e with
  | Ev.openPidfile p => fun q => if q = p then Except.ok "" else fs q
  | Ev.writePidfile p pid => fun q => if q = p then Except.ok (toString pid) else fs q
  | _ => fs

/-- Effect of a trace of events on the filesystem, in order. -/
def applyTrace (fs : FS) : List Ev → FS
  | [] => fs
  | e :: rest => applyTrace (applyEv fs e) rest

/-- An image-replacement (`exec`) event. -/
def isExecEv (e : Ev) : Bool :=
  match e with
  | Ev.execImage _ => true
  | _ => false

/-- Events that neither launch a process nor write the pid: everything the
detached flow does before its launch step is of this kind. -/
def plainEv (e : Ev) : Bool :=
  match e with
  | Ev.spawn _ => false
  | Ev.execImage _ => false
  | Ev.writePidfile _ _ => false
  | _ => true

/-! ## StartProtocol: the detached flow (`Daemon.start` after `os.fork`) -/

/-- How the detached flow ends: `sys.exit(code)` or an uncaught exception
(which terminates the forked interpreter with a nonzero status). -/
inductive ChildOutcome where
  | exited (code : Nat)
  | raised (e : OSError)
deriving DecidableEq

/-- The `os.waitpid` status the supervising flow observes: exit code in
the high byte, 1 (hence a nonzero status) for an uncaught exception. -/
def waitStatus (o : ChildOutcome) : Nat :=
  match o with
  | ChildOutcome.exited c => (c % 256) * 256
  | ChildOutcome.raised _ => 256

/-- Oracles for the syscalls of the detached flow.  `home0` is the
`HOME` environment value inherited from the invoking shell; `popenPid`
is the process id `subprocess.Popen` hands back. -/
structure ChildEnv where
  setuid : Nat → Except OSError Unit
  setgid : Nat → Except OSError Unit
  chdir : String → Except OSError Unit
  openFile : String → String → Except OSError Unit
  popenPid : Int
  home0 : String

/-- The four `makedirs` calls at the top of the detached flow (pidfile,
stdin, stdout, `stderr or stdout` parent directories). -/
def setupDirEvs (d : Daemon) : List Ev :=
  [Ev.makedirs (dirname d.pidfile), Ev.makedirs (dirname d.stdin),
   Ev.makedirs (dirname d.stdout), Ev.makedirs (dirname (pyOr d.stderr d.stdout))]

/-- The `os.setuid` step: `None` is skipped; `EPERM` is logged and turns
into `sys.exit(errno.EPERM)`; any other errno is re-raised. -/
def setuidStage (d : Daemon) (uid : Option Nat) (env : ChildEnv) :
    Except (ChildOutcome × List Ev) (List Ev) :=
  match uid with
  | none => .ok []
  | some u =>
    match env.setuid u with
    | .ok _ => .ok [Ev.setuid u]
    | .error e =>
      if e.errno = EPERM then
        .error (ChildOutcome.exited EPERM,
          [Ev.setuid u,
           Ev.logMsg ("not permitted to change to user " ++ pyReprOptStr d.user)])
      else .error (ChildOutcome.raised e, [Ev.setuid u])

/-- The `os.setgid` step, performed after the `os.setuid` step. -/
def setgidStage (d : Daemon) (gid : Option Nat) (env : ChildEnv) :
    Except (ChildOutcome × List Ev) (List Ev) :=
  match gid with
  | none => .ok []
  | some g =>
    match env.setgid g with
    | .ok _ => .ok [Ev.setgid g]
    | .error e =>
      if e.errno = EPERM then
        .error (ChildOutcome.exited EPERM,
          [Ev.setgid g,
           Ev.logMsg ("not permitted to change to group " ++ pyReprOptStr d.group)])
      else .error (ChildOutcome.raised e, [Ev.setgid g])

/-- The privilege-drop steps in source order: user id first, then group id. -/
def privStages (d : Daemon) (uid gid : Option Nat) (env : ChildEnv) :
    Except (ChildOutcome × List Ev) (List Ev) :=
  match setuidStage d uid env with
  | .error r => .error r
  | .ok e1 =>
    match setgidStage d gid env with
    | .error (o, evs) => .error (o, e1 ++ evs)
    | .ok e2 => .ok (e1 ++ e2)

/-- Opening stdin (read), stdout (append), and stderr (append, or reusing
the stdout handle when `self.stderr` is falsy); a failed open raises. -/
def openStage (d : Daemon) (env : ChildEnv) :
    Except (OSError × List Ev) (List Ev) :=
  match env.openFile d.stdin "r" with
  | .error e => .error (e, [Ev.openFile d.stdin "r"])
  | .ok _ =>
    match env.openFile d.stdout "a+" with
    | .error e => .error (e, [Ev.openFile d.stdin "r", Ev.openFile d.stdout "a+"])
    | .ok _ =>
      match pyTruthy? d.stderr with
      | some sePath =>
        match env.openFile sePath "a+" with
        | .error e =>
          .error (e, [Ev.openFile d.stdin "r", Ev.openFile d.stdout "a+",
                      Ev.openFile sePath "a+"])
        | .ok _ =>
          .ok [Ev.openFile d.stdin "r", Ev.openFile d.stdout "a+",
               Ev.openFile sePath "a+"]
      | none => .ok [Ev.openFile d.stdin "r", Ev.openFile d.stdout "a+"]

/-- The `running ...` line logged before the standard streams are rebound. -/
def runMsg (d : Daemon) : String :=
  "running " ++ String.intercalate " " ((d.prog :: d.args).map shlexQuote)

/-- The `HOME` value in effect after the `if home: os.environ["HOME"] =
home` step: the resolved home directory when truthy, else the inherited
environment value. -/
def homeDirOf (home : Option String) (env : ChildEnv) : String :=
  match pyTruthy? home with
  | some h => h
  | none => env.home0

/-- The `os.environ["HOME"] = home` event, performed only for a truthy
`home`. -/
def homeEvsOf (home : Option String) : List Ev :=
  match pyTruthy? home with
  | some h => [Ev.setHome h]
  | none => []

/-- The directory the detached flow changes into: `expanduser(self.cwd)`
when `cwd` is truthy, else `os.environ["HOME"]`. -/
def chdirTarget (d : Daemon) (home : Option String) (env : ChildEnv) : String :=
  match pyTruthy? d.cwd with
  | some c => expanduser (homeDirOf home env) c
  | none => homeDirOf home env

/-- The detached flow of `Daemon.start`, from the four `makedirs` calls to
`sys.exit`.  `home`, `uid`, `gid` are the identity values the supervising
flow resolved before forking.  Returns how the flow ended together with
the trace of its externally visible actions. -/
def childFlow (d : Daemon) (home : Option String) (uid gid : Option Nat)
    (env : ChildEnv) : ChildOutcome × List Ev :=
  let pre := setupDirEvs d ++ [Ev.openPidfile d.pidfile, Ev.setsid]
  match privStages d uid gid env with
  | .error (o, evs) => (o, pre ++ evs)
  | .ok privEvs =>
    let target := chdirTarget d home env
    match env.chdir target with
    | .error e =>
      (ChildOutcome.raised e, pre ++ privEvs ++ homeEvsOf home ++ [Ev.chdir target])
    | .ok _ =>
      match openStage d env with
      | .error (e, oevs) =>
        (ChildOutcome.raised e,
          pre ++ privEvs ++ homeEvsOf home ++ [Ev.chdir target] ++ oevs)
      | .ok oevs =>
        (ChildOutcome.exited 0,
          pre ++ privEvs ++ homeEvsOf home ++ [Ev.chdir target] ++ oevs ++
            [Ev.logMsg (runMsg d), Ev.dup2 0, Ev.dup2 1, Ev.dup2 2] ++
            [Ev.spawn (d.prog :: d.args), Ev.writePidfile d.pidfile env.popenPid])

/-- The events of a successful `setuid` step (`[]` when no user id is to
be set). -/
def uidEvs (uid : Option Nat) : List Ev :=
  match uid with
  | none => []
  | some u => [Ev.setuid u]

/-- The events of a successful `setgid` step. -/
def gidEvs (gid : Option Nat) : List Ev :=
  match gid with
  | none => []
  | some g => [Ev.setgid g]

/-- The events of a successful `openStage`. -/
def openEvsOf (d : Daemon) : List Ev :=
  match pyTruthy? d.stderr with
  | some sePath =>
    [Ev.openFile d.stdin "r", Ev.openFile d.stdout "a+", Ev.openFile sePath "a+"]
  | none => [Ev.openFile d.stdin "r", Ev.openFile d.stdout "a+"]

/-- Everything the detached flow does before its launch step, when all of
its setup syscalls succeed: read off from `childFlow`. -/
def childSetupEvs (d : Daemon) (home : Option String) (uid gid : Option Nat)
    (env : ChildEnv) : List Ev :=
  setupDirEvs d ++ [Ev.openPidfile d.pidfile, Ev.setsid] ++
    uidEvs uid ++ gidEvs gid ++ homeEvsOf home ++
    [Ev.chdir (chdirTarget d home env)] ++ openEvsOf d ++
    [Ev.logMsg (runMsg d), Ev.dup2 0, Ev.dup2 1, Ev.dup2 2]

/-! ## StartProtocol: the supervising flow (`Daemon.start`) -/

/-- Oracles the supervising flow needs: the status probe, the
`pwd`/`grp` lookups (which raise `KeyError` on unknown names), and the
detached flow's environment. -/
structure StartEnv where
  osKill : Int → Nat → Except OSError Unit
  getpwnam : String → Except PyExc (String × Nat × Nat)
  getgrnam : String → Except PyExc Nat
  child : ChildEnv

/-- Identity resolution before the fork: `home, uid, gid = None, None,
None`; a truthy `user` sets all three from the passwd record; a truthy
`group` overrides the gid from the group record. -/
def resolveIdentity (d : Daemon) (env : StartEnv) :
    Except PyExc (Option String × Option Nat × Option Nat) :=
  match pyTruthy? d.user with
  | some u =>
    match env.getpwnam u with
    | .error e => .error e
    | .ok (homeDir, uid, gid) =>
      match pyTruthy? d.group with
      | some g =>
        match env.getgrnam g with
        | .error e => .error e
        | .ok gid2 => .ok (some homeDir, some uid, some gid2)
      | none => .ok (some homeDir, some uid, some gid)
  | none =>
    match pyTruthy? d.group with
    | some g =>
      match env.getgrnam g with
      | .error e => .error e
      | .ok gid2 => .ok (none, none, some gid2)
    | none => .ok (none, none, none)

/-- `Daemon.start`, as observed by the supervising flow: the boolean it
returns, the log lines it prints, and the trace of the detached flow it
forked (empty when no fork happened).  The filesystem after the call is
`applyTrace fs` of that trace. -/
def Daemon.start (d : Daemon) (fs : FS) (env : StartEnv) :
    Except PyExc (Bool × List String × List Ev) :=
  match d.status fs env.osKill with
  | .error e => .error e
  | .ok st =>
    if st = Status_Started then
      .ok (true, ["daemon already started"], [])
    else
      match resolveIdentity d env with
      | .error e => .error e
      | .ok (home, uid, gid) =>
        let oe := childFlow d home uid gid env.child
        if waitStatus oe.1 = 0 then
          match d.pid (applyTrace fs oe.2) with
          | .error e => .error e
          | .ok p =>
            .ok (true, ["started (PID: " ++ toString p ++ ")"], oe.2)
        else
          .ok (true, ["could not be started, check the output file eventually"], oe.2)

/-! ## StopProtocol: `Daemon.stop` -/

/-- Oracle for `Daemon.stop`: `osKillAt h pid sig` is the outcome of
`os.kill(pid, sig)` issued `h` half-seconds after the stop began (the
poll loop sleeps half a `time`-unit per iteration). -/
structure StopEnv where
  osKillAt : Nat → Int → Nat → Except OSError Unit

/-- The `while time.time() - tstart < config.kill_timeout and
process_exists(pid): time.sleep(0.5)` loop.  `fuel` is the number of
half-units left until the timeout, `h` the half-units elapsed so far;
the pair returned is the elapsed half-units at loop exit and the trace of
probes and sleeps. -/
def stopPollFuel (env : StopEnv) (pid : Int) (fuel h : Nat) : Nat × List Ev :=
  match fuel with
  | 0 => (h, [])
  | fuel' + 1 =>
    if process_exists (env.osKillAt h) pid then
      let r := stopPollFuel env pid fuel' (h + 1)
      (r.1, Ev.poll pid :: Ev.sleepHalf :: r.2)
    else (h, [Ev.poll pid])

/-- `Daemon.stop`: read the pid, send `SIGTERM`; a delivery failure logs
`not started`; otherwise poll until the process disappears or
`kill_timeout` elapses, then escalate to `SIGKILL` if it still exists,
treating a failed `SIGKILL` delivery as the process having stopped.
The function body has no `return` statement, so the value returned to the
caller is Python's `None` (`Option Bool` value `none`). -/
def Daemon.stop (d : Daemon) (fs : FS) (env : StopEnv) (kill_timeout : Nat) :
    Except PyExc (Option Bool × List String × List Ev) :=
  match d.pid fs with
  | .error e => .error e
  | .ok pid =>
    match env.osKillAt 0 pid SIGTERM with
    | .error _ => .ok (none, ["not started"], [])
    | .ok _ =>
      let pr := stopPollFuel env pid (2 * kill_timeout) 0
      if process_exists (env.osKillAt pr.1) pid then
        match env.osKillAt pr.1 pid SIGKILL with
        | .error _ =>
          .ok (none, ["stopping...", "not stopped.", "stopped"],
            Ev.sigTERM pid :: pr.2 ++ [Ev.poll pid, Ev.sigKILL pid])
        | .ok _ =>
          .ok (none, ["stopping...", "not stopped.", "SIGKILL"],
            Ev.sigTERM pid :: pr.2 ++ [Ev.poll pid, Ev.sigKILL pid])
      else
        .ok (none, ["stopping...", "stopped"],
          Ev.sigTERM pid :: pr.2 ++ [Ev.poll pid])

/-! ## The command loops of `main` -/

/-- The `start` command loop: start each daemon in turn, exit 1 as soon as
one returns a falsy value, else exit 0. -/
def mainStart (ds : List Daemon) (fs : FS) (env : StartEnv) : Except PyExc Nat :=
  match ds with
  | [] => .ok 0
  | d :: rest =>
    match d.start fs env with
    | .error e => .error e
    | .ok out =>
      if out.1 then mainStart rest (applyTrace fs out.2.2) env else .ok 1

/-- The `stop` command loop: `if not daemon.stop(): return 1` for each
daemon, else exit 0.  The truthiness test is on the value `Daemon.stop`
returns. -/
def mainStop (ds : List Daemon) (fs : FS) (env : StopEnv) (kill_timeout : Nat) :
    Except PyExc Nat :=
  match ds with
  | [] => .ok 0
  | d :: rest =>
    match d.stop fs env kill_timeout with
    | .error e => .error e
    | .ok out =>
      if pyTruthy out.1 then mainStop rest fs env kill_timeout else .ok 1

/-! ## Concrete fixtures used by the closed theorems and witnesses -/

/-- A filesystem with no files at all (every open raises `ENOENT`). -/
def fsMissing : FS := fun _ => .error { errno := ENOENT }

/-- A filesystem holding exactly one file. -/
def fsWith (path content : String) : FS :=
  fun p => if p = path then .ok content else .error { errno := ENOENT }

/-- A filesystem on which every open is denied (`EACCES`). -/
def fsDenied : FS := fun _ => .error { errno := EACCES }

/-- An `os.kill` oracle for which every delivery succeeds. -/
def kAlive : Int → Nat → Except OSError Unit := fun _ _ => .ok ()

/-- An `os.kill` oracle for which every delivery fails (`ESRCH`). -/
def kDead : Int → Nat → Except OSError Unit := fun _ _ => .error { errno := ESRCH }

/-- A plain daemon spec with all defaults (`nocrux` root directory `/r`). -/
def dP : Daemon := mkDaemon "/r" "p" "/bin/x" [] none none none none none none none

/-- A daemon spec with both a user and a group configured. -/
def dUG : Daemon :=
  mkDaemon "/r" "svc" "/bin/svc" [] none (some "alice") (some "staff") none none none none

/-- A detached-flow environment in which every syscall succeeds. -/
def cenvOk : ChildEnv :=
  { setuid := fun _ => .ok (), setgid := fun _ => .ok (),
    chdir := fun _ => .ok (), openFile := fun _ _ => .ok (),
    popenPid := 4242, home0 := "/root" }

/-- The detached-flow trace of `dUG` under `cenvOk`, with the identity the
supervising flow resolves for user `alice` (uid 1000) and group `staff`
(gid 50). -/
def evsUG : List Ev := (childFlow dUG (some "/home/alice") (some 1000) (some 50) cenvOk).2

/-- A daemon spec with a configured user only. -/
def dSU : Daemon :=
  mkDaemon "/r" "su" "/bin/svc" [] none (some "alice") none none none none none

/-- A start environment in which the daemon is not running, identity
resolution succeeds, and the detached flow's `os.setuid` is denied with
`EPERM` (the "setup failed" checkpoint). -/
def envSU : StartEnv :=
  { osKill := kDead,
    getpwnam := fun u => .ok ("/home/" ++ u, 1000, 1000),
    getgrnam := fun _ => .ok 50,
    child := { setuid := fun _ => .error { errno := EPERM }, setgid := fun _ => .ok (),
               chdir := fun _ => .ok (), openFile := fun _ _ => .ok (),
               popenPid := 4242, home0 := "/root" } }

/-- A start environment in which every probe reports the process alive and
all syscalls succeed. -/
def envAlive : StartEnv :=
  { osKill := kAlive,
    getpwnam := fun u => .ok ("/home/" ++ u, 1000, 1000),
    getgrnam := fun _ => .ok 50,
    child := cenvOk }

/-- The `echo` daemon of the spec's Scenario C. -/
def dEcho : Daemon :=
  mkDaemon "/r" "echo" "/bin/sleep" ["5"] none none none none none none none

/-- A stop environment in which every signal delivery fails (no such
process). -/
def envDead : StopEnv := { osKillAt := fun _ _ _ => .error { errno := ESRCH } }

/-- A daemon recorded under pid 123. -/
def dW : Daemon := mkDaemon "/r" "w" "/bin/w" [] none none none none none none none

def fsW : FS := fsWith "/r/w.pid" "123"

/-- A stop environment in which process 123 stays alive for the first
three half-units after the stop begins and is gone afterwards. -/
def envW : StopEnv :=
  { osKillAt := fun h p _ =>
      if p = 123 ∧ h < 3 then .ok () else .error { errno := ESRCH } }

/-- The result `Daemon.stop` computes for `dW` under `envW`. -/
def outW6 : Option Bool × List String × List Ev :=
  (none, ["stopping...", "stopped"],
    [Ev.sigTERM 123, Ev.poll 123, Ev.sleepHalf, Ev.poll 123, Ev.sleepHalf,
     Ev.poll 123, Ev.sleepHalf, Ev.poll 123, Ev.poll 123])

/-- Does the trace contain an image-replacement event? -/
def hasExec (evs : List Ev) : Bool := evs.any isExecEv

/-! ## Helper lemmas -/

theorem applyEv_nonmod (fs : FS) (e : Ev) (h : modifiesFS e = false) :
    applyEv fs e = fs := by
  cases e <;> first
    | rfl
    | simp [modifiesFS] at h

theorem applyTrace_nonmod (fs : FS) (evs : List Ev)
    (h : ∀ e ∈ evs, modifiesFS e = false) : applyTrace fs evs = fs := by
  induction evs generalizing fs with
  | nil => rfl
  | cons e rest ih =>
    rw [applyTrace, applyEv_nonmod fs e (h e (by simp))]
    exact ih fs (fun x hx => h x (by simp [hx]))

theorem stopPollFuel_ge (env : StopEnv) (pid : Int) :
    ∀ fuel h, h ≤ (stopPollFuel env pid fuel h).1 := by
  intro fuel
  induction fuel with
  | zero => intro h; exact Nat.le_refl h
  | succ n ih =>
    intro h
    unfold stopPollFuel
    cases hc : process_exists (env.osKillAt h) pid with
    | true => simp only [hc, if_true]; exact Nat.le_trans (Nat.le_succ h) (ih (h + 1))
    | false => simp [hc]

theorem stopPollFuel_le (env : StopEnv) (pid : Int) :
    ∀ fuel h, (stopPollFuel env pid fuel h).1 ≤ h + fuel := by
  intro fuel
  induction fuel with
  | zero => intro h; exact Nat.le_refl h
  | succ n ih =>
    intro h
    unfold stopPollFuel
    cases hc : process_exists (env.osKillAt h) pid with
    | true =>
      simp only [hc, if_true]
      have := ih (h + 1)
      omega
    | false => simp [hc]

theorem stopPollFuel_alive (env : StopEnv) (pid : Int) :
    ∀ fuel h i, h ≤ i → i < (stopPollFuel env pid fuel h).1 →
      process_exists (env.osKillAt i) pid = true := by
  intro fuel
  induction fuel with
  | zero =>
    intro h i hle hlt
    simp only [stopPollFuel] at hlt
    omega
  | succ n ih =>
    intro h i hle hlt
    unfold stopPollFuel at hlt
    cases hc : process_exists (env.osKillAt h) pid with
    | true =>
      simp only [hc, if_true] at hlt
      rcases Nat.eq_or_lt_of_le hle with heq | hlt2
      · rw [heq] at hc; exact hc
      · exact ih (h + 1) i hlt2 hlt
    | false =>
      simp only [hc] at hlt
      simp at hlt
      omega

theorem stopPollFuel_dead (env : StopEnv) (pid : Int) :
    ∀ fuel h, (stopPollFuel env pid fuel h).1 < h + fuel →
      process_exists (env.osKillAt (stopPollFuel env pid fuel h).1) pid = false := by
  intro fuel
  induction fuel with
  | zero =>
    intro h hlt
    simp only [stopPollFuel] at hlt
    omega
  | succ n ih =>
    intro h hlt
    unfold stopPollFuel
    unfold stopPollFuel at hlt
    cases hc : process_exists (env.osKillAt h) pid with
    | true =>
      simp only [hc, if_true]
      simp only [hc, if_true] at hlt
      exact ih (h + 1) (by omega)
    | false => simp [hc]

theorem stopPollFuel_evs (env : StopEnv) (pid : Int) :
    ∀ fuel h e, e ∈ (stopPollFuel env pid fuel h).2 →
      e = Ev.poll pid ∨ e = Ev.sleepHalf := by
  intro fuel
  induction fuel with
  | zero => intro h e he; simp [stopPollFuel] at he
  | succ n ih =>
    intro h e he
    unfold stopPollFuel at he
    cases hc : process_exists (env.osKillAt h) pid with
    | true =>
      simp only [hc, if_true] at he
      simp at he
      rcases he with he | he | he
      · exact Or.inl he
      · exact Or.inr he
      · exact ih (h + 1) e he
    | false =>
      simp only [hc] at he
      simp at he
      exact Or.inl he

theorem setuidStage_ok (d : Daemon) (uid : Option Nat) (env : ChildEnv)
    (h : ∀ u, env.setuid u = .ok ()) :
    setuidStage d uid env = .ok (uidEvs uid) := by
  cases uid with
  | none => rfl
  | some u => simp [setuidStage, uidEvs, h u]

theorem setgidStage_ok (d : Daemon) (gid : Option Nat) (env : ChildEnv)
    (h : ∀ g, env.setgid g = .ok ()) :
    setgidStage d gid env = .ok (gidEvs gid) := by
  cases gid with
  | none => rfl
  | some g => simp [setgidStage, gidEvs, h g]

theorem privStages_ok (d : Daemon) (uid gid : Option Nat) (env : ChildEnv)
    (hu : ∀ u, env.setuid u = .ok ()) (hg : ∀ g, env.setgid g = .ok ()) :
    privStages d uid gid env = .ok (uidEvs uid ++ gidEvs gid) := by
  simp [privStages, setuidStage_ok d uid env hu, setgidStage_ok d gid env hg]

theorem openStage_ok (d : Daemon) (env : ChildEnv)
    (h : ∀ p m, env.openFile p m = .ok ()) :
    openStage d env = .ok (openEvsOf d) := by
  cases hse : pyTruthy? d.stderr with
  | none => simp [openStage, openEvsOf, hse, h]
  | some se => simp [openStage, openEvsOf, hse, h]

theorem uidEvs_plain (uid : Option Nat) : (uidEvs uid).all plainEv = true := by
  cases uid <;> rfl

theorem gidEvs_plain (gid : Option Nat) : (gidEvs gid).all plainEv = true := by
  cases gid <;> rfl

theorem homeEvsOf_plain (home : Option String) :
    (homeEvsOf home).all plainEv = true := by
  cases hh : pyTruthy? home <;> simp [homeEvsOf, hh, plainEv]

theorem openEvsOf_plain (d : Daemon) : (openEvsOf d).all plainEv = true := by
  cases hse : pyTruthy? d.stderr <;> simp [openEvsOf, hse, plainEv]

theorem childSetupEvs_plain (d : Daemon) (home : Option String)
    (uid gid : Option Nat) (env : ChildEnv) :
    (childSetupEvs d home uid gid env).all plainEv = true := by
  simp [childSetupEvs, List.all_append, setupDirEvs, plainEv,
    uidEvs_plain, gidEvs_plain, homeEvsOf_plain, openEvsOf_plain]

theorem plain_no_exec (e : Ev) (h : plainEv e = true) : isExecEv e = false := by
  cases e <;> first
    | rfl
    | simp [plainEv] at h

theorem all_no_exec_of_plain (l : List Ev) (h : l.all plainEv = true) :
    l.all (fun e => !(isExecEv e)) = true := by
  simp only [List.all_eq_true] at h ⊢
  intro e he
  simp [plain_no_exec e (h e he)]

/-! ## The claims -/

/-- C1: the claim says the detached flow applies the group-id change
before the user-id change.  The source does the opposite: in
`Daemon.start` the `os.setuid` call (lines 186-193) precedes the
`os.setgid` call (lines 194-201).  Evaluating the detached flow on a
daemon with both a user (uid 1000) and a group (gid 50) configured, under
an environment where every syscall succeeds: both changes are applied,
and the user-id change strictly precedes the group-id change — the
privilege-drop stage, in isolation, yields `[setuid, setgid]` in that
order. -/
theorem claim1_setuid_precedes_setgid :
    Ev.setuid 1000 ∈ evsUG ∧ Ev.setgid 50 ∈ evsUG ∧
    evsUG.indexOf (Ev.setuid 1000) < evsUG.indexOf (Ev.setgid 50) ∧
    privStages dUG (some 1000) (some 50) cenvOk = .ok [Ev.setuid 1000, Ev.setgid 50] :=
  ⟨by decide, by decide, by decide, rfl⟩

/-- C2: the claim says a stop of a non-running daemon logs "not started",
returns success, and the stop command exits 0.  On the `echo` daemon with
no pidfile (recorded pid 0) and failing signal delivery, `Daemon.stop`
does log "not started", but its body has no `return` statement, so it
returns Python `None`; `main`'s loop `if not daemon.stop(): return 1`
treats that as failure and the stop command exits 1, not 0. -/
theorem claim2_stop_not_started_exits_one :
    dEcho.pid fsMissing = .ok 0 ∧
    dEcho.stop fsMissing envDead 10 = .ok (none, ["not started"], []) ∧
    pyTruthy none = false ∧
    mainStop [dEcho] fsMissing envDead 10 = .ok 1 :=
  ⟨rfl, rfl, rfl, rfl⟩

/-- C3: the claim says `start()` reports failure exactly when the
detached flow exits at the "setup failed" checkpoint, and the start
command exits 1 when any daemon's start fails.  On a daemon whose
detached flow is denied `os.setuid` (it exits with `EPERM`, i.e. the
setup-failed checkpoint, and the supervising flow sees the nonzero wait
status and logs the failure line), `Daemon.start` nevertheless returns
`True` — contradicting its own docstring "False if it could not be
started" — so the start command exits 0. -/
theorem claim3_failed_start_reports_success :
    (childFlow dSU (some "/home/alice") (some 1000) (some 1000) envSU.child).1 =
      ChildOutcome.exited 1 ∧
    waitStatus (ChildOutcome.exited 1) = 256 ∧
    Except.map (fun o => (o.1, o.2.1)) (dSU.start fsMissing envSU) =
      .ok (true, ["could not be started, check the output file eventually"]) ∧
    mainStart [dSU] fsMissing envSU = .ok 0 :=
  ⟨rfl, rfl, rfl, rfl⟩

/-- C4 (counterexample): the claim says the detached flow's process image
is replaced by the target program and the PID file write happens
immediately before that image replacement.  On the concrete daemon `dUG`
with every setup syscall succeeding, the detached flow's trace contains
no image-replacement event at all — the launch is a `subprocess.Popen`
spawn — and the PID file write comes strictly after the launch, not
before it. -/
theorem claim4_no_image_replacement :
    hasExec evsUG = false ∧
    Ev.spawn ["/bin/svc"] ∈ evsUG ∧
    Ev.writePidfile "/r/svc.pid" 4242 ∈ evsUG ∧
    evsUG.indexOf (Ev.spawn ["/bin/svc"]) <
      evsUG.indexOf (Ev.writePidfile "/r/svc.pid" 4242) :=
  ⟨by decide, by decide, by decide, by decide⟩

/-- C4 (amended): in the launch step the detached flow spawns the target
program as a new process (`subprocess.Popen`) rather than replacing its
own image, writes the spawned process's id to the PID file immediately
after the spawn, as the final two actions of the flow, and then exits 0;
no image-replacement event occurs anywhere, and nothing before the launch
spawns a process or writes the pid. -/
theorem claim4_spawn_then_pidfile_write (d : Daemon) (home : Option String)
    (uid gid : Option Nat) (env : ChildEnv)
    (hsu : ∀ u, env.setuid u = .ok ()) (hsg : ∀ g, env.setgid g = .ok ())
    (hcd : ∀ p, env.chdir p = .ok ()) (hop : ∀ p m, env.openFile p m = .ok ()) :
    childFlow d home uid gid env =
      (ChildOutcome.exited 0,
        childSetupEvs d home uid gid env ++
          [Ev.spawn (d.prog :: d.args), Ev.writePidfile d.pidfile env.popenPid]) ∧
    (childSetupEvs d home uid gid env).all plainEv = true ∧
    (childFlow d home uid gid env).2.all (fun e => !(isExecEv e)) = true := by
  have hflow : childFlow d home uid gid env =
      (ChildOutcome.exited 0,
        childSetupEvs d home uid gid env ++
          [Ev.spawn (d.prog :: d.args), Ev.writePidfile d.pidfile env.popenPid]) := by
    simp only [childFlow, privStages_ok d uid gid env hsu hsg,
      openStage_ok d env hop, hcd (chdirTarget d home env)]
    simp [childSetupEvs, List.append_assoc]
  refine ⟨hflow, childSetupEvs_plain d home uid gid env, ?_⟩
  rw [hflow]
  simp only [List.all_append]
  rw [all_no_exec_of_plain _ (childSetupEvs_plain d home uid gid env)]
  rfl

/-- C4 (witness): the amended launch property evaluated at the concrete
daemon `dP` under the all-successful environment `cenvOk`. -/
theorem claim4_spawn_then_pidfile_write_witness :
    childFlow dP (some "/home/u") none none cenvOk =
      (ChildOutcome.exited 0,
        childSetupEvs dP (some "/home/u") none none cenvOk ++
          [Ev.spawn (dP.prog :: dP.args), Ev.writePidfile dP.pidfile cenvOk.popenPid]) ∧
    (childSetupEvs dP (some "/home/u") none none cenvOk).all plainEv = true :=
  ⟨(claim4_spawn_then_pidfile_write dP (some "/home/u") none none cenvOk
      (fun _ => rfl) (fun _ => rfl) (fun _ => rfl) (fun _ _ => rfl)).1,
   (claim4_spawn_then_pidfile_write dP (some "/home/u") none none cenvOk
      (fun _ => rfl) (fun _ => rfl) (fun _ => rfl) (fun _ _ => rfl)).2.1⟩

/-- C5: the claim says empty, non-numeric, `"-1"`, and missing pidfile
contents all read as pid 0 and report `Stopped`.  The empty, non-numeric
and missing cases do behave that way (and report `Stopped` even under a
probe for which every process is alive, because pid 0 short-circuits the
probe).  But the content `"-1"` parses as the integer -1 — `int("-1")`
raises no `ValueError` — so `Daemon.pid` returns -1, not 0, the sentinel
is not applied, and under a probe that reports the `os.kill(-1, 0)`
process-group probe as deliverable the status is `Started`. -/
theorem claim5_pid_sentinel_eval :
    dP.pid (fsWith "/r/p.pid" "") = .ok 0 ∧
    dP.pid (fsWith "/r/p.pid" "abc") = .ok 0 ∧
    dP.pid fsMissing = .ok 0 ∧
    dP.status (fsWith "/r/p.pid" "") kAlive = .ok Status_Stopped ∧
    dP.status (fsWith "/r/p.pid" "abc") kAlive = .ok Status_Stopped ∧
    dP.status fsMissing kAlive = .ok Status_Stopped ∧
    dP.pid (fsWith "/r/p.pid" "-1") = .ok (-1) ∧
    dP.status (fsWith "/r/p.pid" "-1") kAlive = .ok Status_Started :=
  ⟨rfl, rfl, rfl, rfl, rfl, rfl, rfl, rfl⟩

/-- C7: `process_exists` is false for pid 0 under any probe, false
whenever the probe delivery fails with any `OSError`, and `Daemon.status`
reports `Started` exactly when `process_exists` holds of the pid read
from the pidfile (it reports `Stopped` otherwise). -/
theorem claim7_exists_status (k : Int → Nat → Except OSError Unit)
    (pid : Int) (e : OSError) (d : Daemon) (fs : FS) (p : Int)
    (herr : k pid 0 = .error e) (hp : d.pid fs = .ok p) :
    process_exists k 0 = false ∧
    process_exists k pid = false ∧
    (d.status fs k = .ok Status_Started ↔ process_exists k p = true) ∧
    (process_exists k p = false → d.status fs k = .ok Status_Stopped) := by
  refine ⟨rfl, ?_, ?_, ?_⟩
  · unfold process_exists
    by_cases h0 : pid = 0
    · simp [h0]
    · simp [h0, herr]
  · unfold Daemon.status
    rw [hp]
    cases hpe : process_exists k p with
    | true => simp [hpe]
    | false => simp [hpe, Status_Started, Status_Stopped]
  · intro hpe
    unfold Daemon.status
    rw [hp]
    simp [hpe]

/-- C7 (witness): instantiated at pid 5 with an always-failing probe and
the daemon `dP` recorded under pid 123. -/
theorem claim7_exists_status_witness :
    process_exists kDead 0 = false ∧
    process_exists kDead 5 = false ∧
    (dP.status (fsWith "/r/p.pid" "123") kDead = .ok Status_Started ↔
      process_exists kDead 123 = true) :=
  ⟨(claim7_exists_status kDead 5 { errno := ESRCH } dP (fsWith "/r/p.pid" "123")
      123 rfl rfl).1,
   (claim7_exists_status kDead 5 { errno := ESRCH } dP (fsWith "/r/p.pid" "123")
      123 rfl rfl).2.1,
   (claim7_exists_status kDead 5 { errno := ESRCH } dP (fsWith "/r/p.pid" "123")
      123 rfl rfl).2.2.1⟩

/-- C8: starting a daemon whose status is already `Started` logs
"daemon already started" and returns `True` without forking a detached
flow — the event trace is empty, so the PID file (and the rest of the
filesystem) is untouched. -/
theorem claim8_start_idempotent (d : Daemon) (fs : FS) (env : StartEnv)
    (h : d.status fs env.osKill = .ok Status_Started) :
    d.start fs env = .ok (true, ["daemon already started"], []) ∧
    applyTrace fs [] = fs := by
  constructor
  · unfold Daemon.start
    rw [h]
    simp
  · rfl

/-- C8 (witness): the daemon `dP` recorded under pid 123 with a probe that
reports it alive. -/
theorem claim8_start_idempotent_witness :
    dP.status (fsWith "/r/p.pid" "123") envAlive.osKill = .ok Status_Started ∧
    dP.start (fsWith "/r/p.pid" "123") envAlive =
      .ok (true, ["daemon already started"], []) :=
  ⟨rfl, (claim8_start_idempotent dP (fsWith "/r/p.pid" "123") envAlive rfl).1⟩

/-- C10: opening the pidfile with an `OSError` whose errno is not
`ENOENT` (for example `EACCES`, permission denied) is not mapped to the
sentinel 0: the exception propagates out of `Daemon.pid`, and from there
out of `Daemon.status`, `Daemon.start` and `Daemon.stop`. -/
theorem claim10_pid_error_propagates (d : Daemon) (fs : FS) (e : OSError)
    (k : Int → Nat → Except OSError Unit) (senv : StartEnv) (stenv : StopEnv)
    (kt : Nat) (hfs : fs d.pidfile = .error e) (hne : e.errno ≠ ENOENT) :
    d.pid fs = .error (PyExc.osError e) ∧
    d.status fs k = .error (PyExc.osError e) ∧
    d.start fs senv = .error (PyExc.osError e) ∧
    d.stop fs stenv kt = .error (PyExc.osError e) := by
  have hpid : d.pid fs = .error (PyExc.osError e) := by
    unfold Daemon.pid
    rw [hfs]
    simp [hne]
  have hst : d.status fs k = .error (PyExc.osError e) := by
    unfold Daemon.status
    rw [hpid]
  refine ⟨hpid, hst, ?_, ?_⟩
  · unfold Daemon.start
    rw [show d.status fs senv.osKill = .error (PyExc.osError e) by
      unfold Daemon.status; rw [hpid]]
  · unfold Daemon.stop
    rw [hpid]

/-- C10 (witness): a filesystem on which every open is denied with
`EACCES`. -/
theorem claim10_pid_error_propagates_witness :
    dP.pid fsDenied = .error (PyExc.osError { errno := EACCES }) ∧
    dP.status fsDenied kAlive = .error (PyExc.osError { errno := EACCES }) ∧
    dP.start fsDenied envAlive = .error (PyExc.osError { errno := EACCES }) ∧
    dP.stop fsDenied envDead 10 = .error (PyExc.osError { errno := EACCES }) :=
  claim10_pid_error_propagates dP fsDenied { errno := EACCES } kAlive envAlive
    envDead 10 rfl (by decide)

theorem stop_evs_nonmod (env : StopEnv) (pid : Int) (fuel h : Nat) (extra : List Ev)
    (hex : ∀ e ∈ extra, modifiesFS e = false) :
    ∀ e ∈ Ev.sigTERM pid :: (stopPollFuel env pid fuel h).2 ++ extra,
      modifiesFS e = false := by
  intro e he
  rcases List.mem_cons.mp he with rfl | he2
  · rfl
  rcases List.mem_append.mp he2 with he3 | he4
  · rcases stopPollFuel_evs env pid fuel h e he3 with rfl | rfl <;> rfl
  · exact hex e he4

theorem sigKILL_not_mem_base (env : StopEnv) (pid : Int) (fuel h : Nat) :
    Ev.sigKILL pid ∉
      Ev.sigTERM pid :: (stopPollFuel env pid fuel h).2 ++ [Ev.poll pid] := by
  intro hmem
  rcases List.mem_cons.mp hmem with heq | hmem2
  · exact Ev.noConfusion heq
  rcases List.mem_append.mp hmem2 with he3 | he4
  · rcases stopPollFuel_evs env pid fuel h _ he3 with heq | heq <;> exact Ev.noConfusion heq
  · rcases List.mem_singleton.mp he4 with heq
    exact Ev.noConfusion heq

/-- C6: for a daemon with a live recorded process (the graceful `SIGTERM`
delivery succeeds), `Daemon.stop` sends the graceful signal first (head of
its trace), polls existence at half-time-unit steps until the process
disappears or `kill_timeout` time-units (`2 * kt` half-units; default
`kill_timeout` is 10) elapse — every poll before loop exit saw the
process alive, and an exit before the deadline means the process was
gone — sends `SIGKILL` exactly when the process still exists at loop
exit, and treats a failed `SIGKILL` delivery as success, logging
"stopped". -/
theorem claim6_stop_escalation (d : Daemon) (fs : FS) (env : StopEnv) (kt : Nat)
    (out : Option Bool × List String × List Ev) (pid : Int)
    (hpid : d.pid fs = .ok pid)
    (hterm : env.osKillAt 0 pid SIGTERM = .ok ())
    (hout : d.stop fs env kt = .ok out) :
    out.1 = none ∧
    out.2.2.head? = some (Ev.sigTERM pid) ∧
    (stopPollFuel env pid (2 * kt) 0).1 ≤ 2 * kt ∧
    (∀ i, i < (stopPollFuel env pid (2 * kt) 0).1 →
      process_exists (env.osKillAt i) pid = true) ∧
    ((stopPollFuel env pid (2 * kt) 0).1 < 2 * kt →
      process_exists (env.osKillAt (stopPollFuel env pid (2 * kt) 0).1) pid = false) ∧
    ((Ev.sigKILL pid ∈ out.2.2) ↔
      process_exists (env.osKillAt (stopPollFuel env pid (2 * kt) 0).1) pid = true) ∧
    (∀ e3 : OSError,
      env.osKillAt (stopPollFuel env pid (2 * kt) 0).1 pid SIGKILL = .error e3 →
      process_exists (env.osKillAt (stopPollFuel env pid (2 * kt) 0).1) pid = true →
      out.2.1 = ["stopping...", "not stopped.", "stopped"]) ∧
    default_kill_timeout = 10 := by
  unfold Daemon.stop at hout
  simp only [hpid, hterm] at hout
  have hle := stopPollFuel_le env pid (2 * kt) 0
  have halive := stopPollFuel_alive env pid (2 * kt) 0
  have hdead := stopPollFuel_dead env pid (2 * kt) 0
  cases hex : process_exists (env.osKillAt (stopPollFuel env pid (2 * kt) 0).1) pid with
  | false =>
    simp only [hex, Bool.false_eq_true, if_false, Except.ok.injEq] at hout
    subst hout
    refine ⟨rfl, rfl, by simpa using hle, fun i hi => halive i (Nat.zero_le i) hi,
      fun _ => rfl, ?_, ?_, rfl⟩
    · constructor
      · intro hmem
        exact absurd hmem (sigKILL_not_mem_base env pid (2 * kt) 0)
      · intro hco
        exact Bool.noConfusion hco
    · intro e3 hk3 hco
      exact Bool.noConfusion hco
  | true =>
    simp only [hex, if_true] at hout
    cases hk : env.osKillAt (stopPollFuel env pid (2 * kt) 0).1 pid SIGKILL with
    | error e3 =>
      simp only [hk, Except.ok.injEq] at hout
      subst hout
      refine ⟨rfl, rfl, by simpa using hle, fun i hi => halive i (Nat.zero_le i) hi,
        ?_, ?_, ?_, rfl⟩
      · intro hlt
        have hf := hdead (by omega)
        rw [hf] at hex
        exact Bool.noConfusion hex
      · constructor
        · intro _
          rfl
        · intro _
          simp
      · intro e3x hk3 hco
        rfl
    | ok u2 =>
      simp only [hk, Except.ok.injEq] at hout
      subst hout
      refine ⟨rfl, rfl, by simpa using hle, fun i hi => halive i (Nat.zero_le i) hi,
        ?_, ?_, ?_, rfl⟩
      · intro hlt
        have hf := hdead (by omega)
        rw [hf] at hex
        exact Bool.noConfusion hex
      · constructor
        · intro _
          rfl
        · intro _
          simp
      · intro e3x hk3 hco
        exact Except.noConfusion hk3

/-- C6 (witness): the daemon `dW` recorded under pid 123, which stays
alive for three half-units after the stop begins and then disappears;
the loop exits after three polls, before the 20-half-unit deadline, and
no `SIGKILL` is sent. -/
theorem claim6_stop_escalation_witness :
    dW.pid fsW = .ok 123 ∧
    envW.osKillAt 0 123 SIGTERM = .ok () ∧
    dW.stop fsW envW 10 = .ok outW6 ∧
    outW6.2.2.head? = some (Ev.sigTERM 123) ∧
    (stopPollFuel envW 123 (2 * 10) 0).1 ≤ 2 * 10 ∧
    ((Ev.sigKILL 123 ∈ outW6.2.2) ↔
      process_exists (envW.osKillAt (stopPollFuel envW 123 (2 * 10) 0).1) 123 = true) ∧
    default_kill_timeout = 10 := by
  have h := claim6_stop_escalation dW fsW envW 10 outW6 123 rfl rfl rfl
  exact ⟨rfl, rfl, rfl, h.2.1, h.2.2.1, h.2.2.2.2.2.1, h.2.2.2.2.2.2.2⟩

/-- C9: `Daemon.stop` never deletes or rewrites the PID file: every event
in its trace leaves the filesystem untouched, so the filesystem — and in
particular the pid that a subsequent `Daemon.pid`/`Daemon.status` reads —
is exactly what it was before the stop. -/
theorem claim9_stop_preserves_pidfile (d : Daemon) (fs : FS) (env : StopEnv)
    (kt : Nat) (out : Option Bool × List String × List Ev)
    (hout : d.stop fs env kt = .ok out) :
    (∀ e ∈ out.2.2, modifiesFS e = false) ∧
    applyTrace fs out.2.2 = fs ∧
    d.pid (applyTrace fs out.2.2) = d.pid fs := by
  have hall : ∀ e ∈ out.2.2, modifiesFS e = false := by
    unfold Daemon.stop at hout
    cases hp : d.pid fs with
    | error e =>
      simp only [hp] at hout
      exact Except.noConfusion hout
    | ok pid =>
      simp only [hp] at hout
      cases ht : env.osKillAt 0 pid SIGTERM with
      | error e2 =>
        simp only [ht, Except.ok.injEq] at hout
        subst hout
        intro e he
        simp at he
      | ok u =>
        simp only [ht] at hout
        cases hex : process_exists (env.osKillAt (stopPollFuel env pid (2 * kt) 0).1) pid with
        | false =>
          simp only [hex, Bool.false_eq_true, if_false, Except.ok.injEq] at hout
          subst hout
          exact stop_evs_nonmod env pid (2 * kt) 0 [Ev.poll pid]
            (by intro e he; rcases List.mem_singleton.mp he with rfl; rfl)
        | true =>
          simp only [hex, if_true] at hout
          cases hk : env.osKillAt (stopPollFuel env pid (2 * kt) 0).1 pid SIGKILL with
          | error e3 =>
            simp only [hk, Except.ok.injEq] at hout
            subst hout
            exact stop_evs_nonmod env pid (2 * kt) 0 [Ev.poll pid, Ev.sigKILL pid]
              (by
                intro e he
                rcases List.mem_cons.mp he with rfl | he2
                · rfl
                rcases List.mem_singleton.mp he2 with rfl
                rfl)
          | ok u2 =>
            simp only [hk, Except.ok.injEq] at hout
            subst hout
            exact stop_evs_nonmod env pid (2 * kt) 0 [Ev.poll pid, Ev.sigKILL pid]
              (by
                intro e he
                rcases List.mem_cons.mp he with rfl | he2
                · rfl
                rcases List.mem_singleton.mp he2 with rfl
                rfl)
  exact ⟨hall, applyTrace_nonmod fs out.2.2 hall,
    by rw [applyTrace_nonmod fs out.2.2 hall]⟩

/-- C9 (witness): after stopping `dW`, the filesystem is unchanged and the
pid read is unchanged (the stale pid 123 stays recorded). -/
theorem claim9_stop_preserves_pidfile_witness :
    dW.stop fsW envW 10 = .ok outW6 ∧
    applyTrace fsW outW6.2.2 = fsW ∧
    dW.pid (applyTrace fsW outW6.2.2) = dW.pid fsW :=
  ⟨rfl, (claim9_stop_preserves_pidfile dW fsW envW 10 outW6 rfl).2.1,
    (claim9_stop_preserves_pidfile dW fsW envW 10 outW6 rfl).2.2⟩
